import Mathlib

/-!
Shallow embedding of `bevy_rng` (src/lib.rs): a bevy plugin that stores an
optional `Seed` resource and constructs per-system `Rng` handles wrapping
`XorShiftRng`.  Machine integers are modelled as `Nat` with explicit
reduction modulo `2^32` / `2^64` where the Rust code wraps or truncates.

The crate's direct dependencies that determine observable behaviour are
embedded as well:
* `rand_xorshift::XorShiftRng` (xorshift128: `next_u32`, `next_u64` via two
  32-bit draws, `from_seed` on a 16-byte array with the all-zero guard);
* `rand_core::SeedableRng::seed_from_u64` (the default method: a PCG32
  stream expanded into the 16 seed bytes, little endian);
* the `Standard` distribution on `bool` from `rand`
  (`(rng.next_u32() as i32) < 0`, i.e. the top bit of a 32-bit draw).
-/

/-- Truncation to a 32-bit word, `x as u32`. -/
def w32 (n : Nat) : Nat := n % 2 ^ 32

/-- Truncation to a 64-bit word, wrapping 64-bit arithmetic. -/
def w64 (n : Nat) : Nat := n % 2 ^ 64

/-- Wrapping 32-bit left shift, Rust `x << k` on `u32`. -/
def shl32 (x k : Nat) : Nat := w32 (x <<< k)

/-- Rust `u32::rotate_right` for a rotation amount `0 ≤ k < 32`. -/
def rotr32 (x k : Nat) : Nat := w32 ((x >>> k) ||| (x <<< (32 - k)))

/-- Little-endian byte decomposition of a 32-bit word, `x.to_le_bytes()`. -/
def le_bytes4 (x : Nat) : List Nat :=
  [x % 256, x / 2 ^ 8 % 256, x / 2 ^ 16 % 256, x / 2 ^ 24 % 256]

/-- Little-endian read of a `u32` from four bytes (`read_u32_into` on one
four-byte chunk). -/
def read_u32_le (b0 b1 b2 b3 : Nat) : Nat :=
  b0 ||| (b1 <<< 8) ||| (b2 <<< 16) ||| (b3 <<< 24)

/-- State of `rand_xorshift::XorShiftRng` (four 32-bit words). -/
structure XorShiftRng where
  x : Nat
  y : Nat
  z : Nat
  w : Nat
deriving DecidableEq, Repr

/-- `XorShiftRng::next_u32` (rand_xorshift 0.2): Marsaglia xorshift128.
Returns the drawn word and the successor state. -/
def XorShiftRng.next_u32 (s : XorShiftRng) : Nat × XorShiftRng :=
  let x := s.x
  let t := x ^^^ shl32 x 11
  let wNew := (s.w ^^^ (s.w >>> 19)) ^^^ (t ^^^ (t >>> 8))
  (wNew, ⟨s.y, s.z, s.w, wNew⟩)

/-- `XorShiftRng::next_u64`, which is `rand_core::impls::next_u64_via_u32`:
draw `x` then `y` as `u32` and return `(y << 32) | x`. -/
def XorShiftRng.next_u64 (s : XorShiftRng) : Nat × XorShiftRng :=
  let (x, s1) := s.next_u32
  let (y, s2) := s1.next_u32
  ((y <<< 32) ||| x, s2)

/-- `XorShiftRng::from_seed` on the 16-byte seed array: read four `u32`
little endian; an all-zero seed is replaced by the fixed `0xBAD5EED`
pattern (xorshift cannot be seeded with all zeroes). Bytes beyond index 15
are never consulted; a short list reads as zero-padded (callers below
always pass 16 bytes). -/
def XorShiftRng.from_seed (seed : List Nat) : XorShiftRng :=
  let b := fun i => seed.getD i 0
  let s0 := read_u32_le (b 0) (b 1) (b 2) (b 3)
  let s1 := read_u32_le (b 4) (b 5) (b 6) (b 7)
  let s2 := read_u32_le (b 8) (b 9) (b 10) (b 11)
  let s3 := read_u32_le (b 12) (b 13) (b 14) (b 15)
  if s0 = 0 ∧ s1 = 0 ∧ s2 = 0 ∧ s3 = 0 then
    ⟨0xBAD5EED, 0xBAD5EED, 0xBAD5EED, 0xBAD5EED⟩
  else
    ⟨s0, s1, s2, s3⟩

/-- Multiplier of the PCG32 stream used by `seed_from_u64`. -/
def pcg_mul : Nat := 6364136223846793005

/-- Increment of the PCG32 stream used by `seed_from_u64`. -/
def pcg_inc : Nat := 11634580027462260723

/-- One LCG advance of the PCG32 state (wrapping 64-bit arithmetic). -/
def pcg_step (state : Nat) : Nat := w64 (state * pcg_mul + pcg_inc)

/-- PCG32 output function: xorshift-high then random rotate. -/
def pcg_out (state : Nat) : Nat :=
  rotr32 (w32 (((state >>> 18) ^^^ state) >>> 27)) (state >>> 59)

/-- `SeedableRng::seed_from_u64` (default method, rand_core 0.5): advance a
PCG32 stream once per 4-byte chunk of the 16-byte seed, write each output
little endian, then call `from_seed`. -/
def XorShiftRng.seed_from_u64 (n : Nat) : XorShiftRng :=
  let s1 := pcg_step (w64 n)
  let s2 := pcg_step s1
  let s3 := pcg_step s2
  let s4 := pcg_step s3
  XorShiftRng.from_seed
    (le_bytes4 (pcg_out s1) ++ le_bytes4 (pcg_out s2) ++
      le_bytes4 (pcg_out s3) ++ le_bytes4 (pcg_out s4))

/-- The `Standard` distribution on `bool` (rand 0.7): compare the most
significant bit of a `u32` draw, `(rng.next_u32() as i32) < 0`. -/
def standard_bool (s : XorShiftRng) : Bool × XorShiftRng :=
  let (v, s1) := s.next_u32
  (decide (2 ^ 31 ≤ v), s1)

/-- `enum Seed { Number(u64), String(String) }` from src/lib.rs.  The `Nat`
payload of `number` denotes the `u64` value. -/
inductive Seed where
  | number (n : Nat)
  | string (s : String)
deriving DecidableEq, Repr

/-- `struct RngPlugin { seed: Option<Seed> }` from src/lib.rs. -/
structure RngPlugin where
  seed : Option Seed
deriving DecidableEq, Repr

/-- `RngPlugin::default()` (derived `Default`): no seed. -/
def RngPlugin.mk_default : RngPlugin := ⟨none⟩

/-- `impl From<String> for RngPlugin`. -/
def RngPlugin.from_string (seed : String) : RngPlugin :=
  ⟨some (Seed.string seed)⟩

/-- Rust `str::to_owned`, which copies the text verbatim; on the value
level of the embedding it is the identity on the string contents. -/
def str_to_owned (s : String) : String := s

/-- `impl From<&str> for RngPlugin` (`seed.to_owned()`). -/
def RngPlugin.from_str (seed : String) : RngPlugin :=
  ⟨some (Seed.string (str_to_owned seed))⟩

/-- `impl From<u64> for RngPlugin`. -/
def RngPlugin.from_u64 (seed : Nat) : RngPlugin :=
  ⟨some (Seed.number seed)⟩

/-- UTF-8 encoding of one Unicode scalar value (the bytes Rust's `str`
stores for the character). -/
def utf8_encode_char (c : Nat) : List Nat :=
  if c < 0x80 then [c]
  else if c < 0x800 then
    [0xC0 ||| (c >>> 6), 0x80 ||| (c &&& 0x3F)]
  else if c < 0x10000 then
    [0xE0 ||| (c >>> 12), 0x80 ||| ((c >>> 6) &&& 0x3F), 0x80 ||| (c &&& 0x3F)]
  else
    [0xF0 ||| (c >>> 18), 0x80 ||| ((c >>> 12) &&& 0x3F),
      0x80 ||| ((c >>> 6) &&& 0x3F), 0x80 ||| (c &&& 0x3F)]

/-- The UTF-8 bytes of a string, as Rust's `str::as_bytes` exposes them. -/
def str_utf8_bytes (s : String) : List Nat :=
  (s.data.map (fun c => utf8_encode_char c.toNat)).flatten

/-- FNV-1a over a byte list into a 64-bit accumulator (used only by the
spec-modelled text-to-seed expansion below). -/
def fnv1a64 (bytes : List Nat) : Nat :=
  bytes.foldl (fun h b => w64 ((h ^^^ b) * 0x100000001b3)) 0xcbf29ce484222325

/-- Modelled from the spec: the text-to-seed expansion of the external
`rand_seeder` crate (`Seeder::from(s).make_rng()`), whose SipHash-based
source is not part of this repository.  The spec requires only that the
16 seed bytes are "derived deterministically from the bytes of s using a
standard text-to-seed expansion function"; here each of the four seed
words is an FNV-1a hash of the UTF-8 bytes prefixed with the word index,
standing in for the crate's SipRng byte stream. -/
def seeder_expand_bytes (bytes : List Nat) : List Nat :=
  le_bytes4 (w32 (fnv1a64 (0 :: bytes))) ++ le_bytes4 (w32 (fnv1a64 (1 :: bytes))) ++
    le_bytes4 (w32 (fnv1a64 (2 :: bytes))) ++ le_bytes4 (w32 (fnv1a64 (3 :: bytes)))

/-- `Seeder::from(seed.as_str()).make_rng::<XorShiftRng>()`: fill the
16-byte seed array deterministically from the text and call `from_seed`
(the `make_rng` shape is the crate's; the byte stream is the spec-modelled
expansion above). -/
def Seeder.make_rng (s : String) : XorShiftRng :=
  XorShiftRng.from_seed (seeder_expand_bytes (str_utf8_bytes s))

/-- Modelled from the spec: bevy's shared configuration store (`Resources`
inside `AppBuilder`), restricted to the one resource type this crate ever
touches — the optional `Seed` slot (`resources.get::<Seed>()` /
`app.add_resource(seed)`); bevy's typed store holds at most one value per
type, hence the `Option`.  `other` stands for all application state the
plugin does not touch. -/
structure Resources (α : Type) where
  seed_res : Option Seed
  other : α
deriving DecidableEq, Repr

/-- `AppBuilder::add_resource::<Seed>`: insert (or replace) the `Seed`
entry, leaving the rest of the application state unchanged. -/
def add_resource (app : Resources α) (s : Seed) : Resources α :=
  { app with seed_res := some s }

/-- `impl Plugin for RngPlugin::build`: if the descriptor carries a seed,
publish a clone of it as a resource; otherwise do nothing. -/
def RngPlugin.build (p : RngPlugin) (app : Resources α) : Resources α :=
  match p.seed with
  | some seed => add_resource app seed
  | none => app

/-- `struct Rng { inner: XorShiftRng }` from src/lib.rs. -/
structure Rng where
  inner : XorShiftRng
deriving DecidableEq, Repr

/-- `impl Deref for Rng`: expose the inner `XorShiftRng`. -/
def Rng.deref (r : Rng) : XorShiftRng := r.inner

/-- A draw operation invoked on the handle through `Deref`/`DerefMut`:
the operation runs on the inner generator, whose successor state is
written back in place. -/
def Rng.apply_op (op : XorShiftRng → β × XorShiftRng) (r : Rng) : β × Rng :=
  let (v, s1) := op r.deref
  (v, ⟨s1⟩)

/-- `impl FromResources for Rng::from_resources`: the three-way seed
resolution — text seed via the Seeder expansion, numeric seed via
`seed_from_u64`, no seed via `seed_from_u64(0)`. -/
def Rng.from_resources (res : Resources α) : Rng :=
  let inner := match res.seed_res with
    | some (Seed.string s) => Seeder.make_rng s
    | some (Seed.number num) => XorShiftRng.seed_from_u64 num
    | none => XorShiftRng.seed_from_u64 0
  ⟨inner⟩

/-- The list of outputs of `k` successive draws with operation `op`,
starting from generator state `g`. -/
def draw_seq (op : XorShiftRng → Nat × XorShiftRng) : Nat → XorShiftRng → List Nat
  | 0, _ => []
  | k + 1, g => let (v, g1) := op g; v :: draw_seq op k g1

/-- Post-registration operations of the application: a system lazily
constructs its own handle (`Local<Rng>` → `from_resources`), or an
existing handle performs a draw (mutating only that handle). -/
inductive SysOp where
  | construct_handle : SysOp
  | draw (f : XorShiftRng → Nat × XorShiftRng) (i : Nat) : SysOp

/-- Application state after startup: the shared resources plus the
per-system handles constructed so far. -/
structure World (α : Type) where
  resources : Resources α
  handles : List Rng

/-- Advance the handle at position `i` with draw operation `f`
(out-of-range indices leave the list unchanged). -/
def update_handle (f : XorShiftRng → Nat × XorShiftRng) : Nat → List Rng → List Rng
  | _, [] => []
  | 0, r :: rs => (r.apply_op f).2 :: rs
  | i + 1, r :: rs => r :: update_handle f i rs

/-- One post-registration step of the application. -/
def SysOp.step (op : SysOp) (w : World α) : World α :=
  match op with
  | .construct_handle =>
      { w with handles := w.handles ++ [Rng.from_resources w.resources] }
  | .draw f i => { w with handles := update_handle f i w.handles }

/-- Run a sequence of post-registration operations. -/
def run_ops : List SysOp → World α → World α
  | [], w => w
  | op :: ops, w => run_ops ops (op.step w)

/-! ## Helper lemmas -/

theorem step_resources (op : SysOp) (w : World α) : (op.step w).resources = w.resources := by
  cases op <;> rfl

theorem run_ops_resources (ops : List SysOp) :
    ∀ w : World α, (run_ops ops w).resources = w.resources := by
  induction ops with
  | nil => intro w; rfl
  | cons op ops ih =>
      intro w
      calc (run_ops (op :: ops) w).resources
          = (run_ops ops (op.step w)).resources := rfl
        _ = (op.step w).resources := ih (op.step w)
        _ = w.resources := step_resources op w

theorem from_resources_seed_only (r1 : Resources α) (r2 : Resources β)
    (h : r1.seed_res = r2.seed_res) :
    Rng.from_resources r1 = Rng.from_resources r2 := by
  unfold Rng.from_resources
  rw [h]

/-! ## Claim theorems -/

/-- Claim C1: handle construction follows the three-way resolution policy —
a stored `Seed::String(s)` yields the Seeder-expanded state, a stored
`Seed::Number(n)` yields `seed_from_u64(n)`, and an absent seed yields
`seed_from_u64(0)`. -/
theorem c1_seed_resolution :
    (∀ (α : Type) (res : Resources α) (s : String),
        res.seed_res = some (Seed.string s) →
        Rng.from_resources res = ⟨Seeder.make_rng s⟩) ∧
    (∀ (α : Type) (res : Resources α) (n : Nat),
        res.seed_res = some (Seed.number n) →
        Rng.from_resources res = ⟨XorShiftRng.seed_from_u64 n⟩) ∧
    (∀ (α : Type) (res : Resources α),
        res.seed_res = none →
        Rng.from_resources res = ⟨XorShiftRng.seed_from_u64 0⟩) := by
  refine ⟨?_, ?_, ?_⟩
  · intro α res s h
    unfold Rng.from_resources
    rw [h]
  · intro α res n h
    unfold Rng.from_resources
    rw [h]
  · intro α res h
    unfold Rng.from_resources
    rw [h]

/-- Witness for C1 at concrete configurations. -/
theorem c1_seed_resolution_witness :
    Rng.from_resources (⟨some (Seed.string "alpha"), 0⟩ : Resources Nat)
        = ⟨Seeder.make_rng "alpha"⟩ ∧
    Rng.from_resources (⟨some (Seed.number 7), 0⟩ : Resources Nat)
        = ⟨XorShiftRng.seed_from_u64 7⟩ ∧
    Rng.from_resources (⟨none, 0⟩ : Resources Nat)
        = ⟨XorShiftRng.seed_from_u64 0⟩ :=
  ⟨c1_seed_resolution.1 Nat ⟨some (Seed.string "alpha"), 0⟩ "alpha" rfl,
   c1_seed_resolution.2.1 Nat ⟨some (Seed.number 7), 0⟩ 7 rfl,
   c1_seed_resolution.2.2 Nat ⟨none, 0⟩ rfl⟩

/-- Claim C2: handle construction is a deterministic function of the stored
seed — two handles constructed independently from configurations holding
the same `Seed` are equal, and every draw sequence of any length taken with
any draw operation coincides between them. -/
theorem c2_determinism (r1 : Resources α) (r2 : Resources β)
    (h : r1.seed_res = r2.seed_res) :
    Rng.from_resources r1 = Rng.from_resources r2 ∧
    ∀ (op : XorShiftRng → Nat × XorShiftRng) (k : Nat),
      draw_seq op k (Rng.from_resources r1).inner
        = draw_seq op k (Rng.from_resources r2).inner := by
  have he := from_resources_seed_only r1 r2 h
  exact ⟨he, fun op k => by rw [he]⟩

/-- Witness for C2: numeric seed 42 in two independent applications (with
different unrelated state); the handles agree and so do their first five
draws. -/
theorem c2_determinism_witness :
    Rng.from_resources (⟨some (Seed.number 42), 0⟩ : Resources Nat)
        = Rng.from_resources (⟨some (Seed.number 42), true⟩ : Resources Bool) ∧
    draw_seq XorShiftRng.next_u32 5
        (Rng.from_resources (⟨some (Seed.number 42), 0⟩ : Resources Nat)).inner
      = draw_seq XorShiftRng.next_u32 5
        (Rng.from_resources (⟨some (Seed.number 42), true⟩ : Resources Bool)).inner :=
  ⟨(c2_determinism ⟨some (Seed.number 42), 0⟩ ⟨some (Seed.number 42), true⟩ rfl).1,
   (c2_determinism ⟨some (Seed.number 42), 0⟩ ⟨some (Seed.number 42), true⟩ rfl).2
     XorShiftRng.next_u32 5⟩

/-- Claim C3: with no stored seed every handle is `seed_from_u64 0`; any two
unconfigured handles are equal (hence produce the identical draw sequence),
and the first boolean drawn through the `Standard` distribution is the fixed
constant `true`. -/
theorem c3_unseeded_default :
    (∀ (α : Type) (res : Resources α), res.seed_res = none →
        Rng.from_resources res = ⟨XorShiftRng.seed_from_u64 0⟩) ∧
    (∀ (α β : Type) (r1 : Resources α) (r2 : Resources β),
        r1.seed_res = none → r2.seed_res = none →
        Rng.from_resources r1 = Rng.from_resources r2 ∧
        ∀ (op : XorShiftRng → Nat × XorShiftRng) (k : Nat),
          draw_seq op k (Rng.from_resources r1).inner
            = draw_seq op k (Rng.from_resources r2).inner) ∧
    (∀ (α : Type) (res : Resources α), res.seed_res = none →
        (standard_bool (Rng.from_resources res).inner).1 = true) := by
  have hnone : ∀ (α : Type) (res : Resources α), res.seed_res = none →
      Rng.from_resources res = ⟨XorShiftRng.seed_from_u64 0⟩ := by
    intro α res h
    unfold Rng.from_resources
    rw [h]
  refine ⟨hnone, ?_, ?_⟩
  · intro α β r1 r2 h1 h2
    have he : Rng.from_resources r1 = Rng.from_resources r2 :=
      from_resources_seed_only r1 r2 (h1.trans h2.symm)
    exact ⟨he, fun op k => by rw [he]⟩
  · intro α res h
    rw [hnone α res h]
    decide

/-- Witness for C3 at two concrete unconfigured applications. -/
theorem c3_unseeded_default_witness :
    Rng.from_resources (⟨none, 0⟩ : Resources Nat)
        = ⟨XorShiftRng.seed_from_u64 0⟩ ∧
    Rng.from_resources (⟨none, 0⟩ : Resources Nat)
        = Rng.from_resources (⟨none, false⟩ : Resources Bool) ∧
    (standard_bool (Rng.from_resources (⟨none, 0⟩ : Resources Nat)).inner).1 = true :=
  ⟨c3_unseeded_default.1 Nat ⟨none, 0⟩ rfl,
   (c3_unseeded_default.2.1 Nat Bool ⟨none, 0⟩ ⟨none, false⟩ rfl rfl).1,
   c3_unseeded_default.2.2 Nat ⟨none, 0⟩ rfl⟩

/-- Claim C4: `build` has exactly one conditional side effect — with a seeded
descriptor the configuration afterwards holds exactly that seed (the typed
slot holds one entry) and all other application state is untouched; with an
unseeded descriptor `build` is the identity, so an absent configuration
stays absent. -/
theorem c4_build_effect :
    (∀ (α : Type) (p : RngPlugin) (app : Resources α) (s : Seed),
        p.seed = some s →
        (p.build app).seed_res = some s ∧ (p.build app).other = app.other) ∧
    (∀ (α : Type) (p : RngPlugin) (app : Resources α),
        p.seed = none → p.build app = app) := by
  constructor
  · intro α p app s h
    unfold RngPlugin.build
    rw [h]
    exact ⟨rfl, rfl⟩
  · intro α p app h
    unfold RngPlugin.build
    rw [h]

/-- Witness for C4: registering with numeric seed 5 stores exactly that
seed and leaves the rest of the application alone; registering the default
descriptor changes nothing. -/
theorem c4_build_effect_witness :
    ((RngPlugin.from_u64 5).build (⟨none, 3⟩ : Resources Nat)).seed_res
        = some (Seed.number 5) ∧
    ((RngPlugin.from_u64 5).build (⟨none, 3⟩ : Resources Nat)).other = 3 ∧
    RngPlugin.mk_default.build (⟨none, 3⟩ : Resources Nat) = ⟨none, 3⟩ :=
  ⟨(c4_build_effect.1 Nat (RngPlugin.from_u64 5) ⟨none, 3⟩ (Seed.number 5) rfl).1,
   (c4_build_effect.1 Nat (RngPlugin.from_u64 5) ⟨none, 3⟩ (Seed.number 5) rfl).2,
   c4_build_effect.2 Nat RngPlugin.mk_default ⟨none, 3⟩ rfl⟩

/-- Claim C5: the descriptor conversions are verbatim and total — every
string maps to `Some(Seed::String(s))` with the text unchanged and every
`u64` to `Some(Seed::Number(n))` with the value unchanged. -/
theorem c5_conversions_verbatim :
    (∀ s : String, (RngPlugin.from_string s).seed = some (Seed.string s)) ∧
    (∀ s : String, (RngPlugin.from_str s).seed = some (Seed.string s)) ∧
    (∀ n : Nat, (RngPlugin.from_u64 n).seed = some (Seed.number n)) :=
  ⟨fun _ => rfl, fun _ => rfl, fun _ => rfl⟩

/-- Claim C6: the wrapper adds no behaviour — a draw operation invoked on a
handle through `Deref`/`DerefMut` returns exactly the value the bare
`XorShiftRng` with the same state returns, the successor handle wraps
exactly the bare successor state, and `deref` exposes the inner state
unchanged. -/
theorem c6_deref_delegation :
    ∀ (β : Type) (op : XorShiftRng → β × XorShiftRng) (g : XorShiftRng),
      (Rng.apply_op op ⟨g⟩).1 = (op g).1 ∧
      ((Rng.apply_op op ⟨g⟩).2).inner = (op g).2 ∧
      Rng.deref ⟨g⟩ = g := by
  intro β op g
  rcases hov : op g with ⟨v, s1⟩
  refine ⟨?_, ?_, rfl⟩ <;> simp [Rng.apply_op, Rng.deref, hov]

/-- Claim C7: the stored seed is written only at registration time — no
post-registration operation (handle construction or draw) modifies the
shared resources at all, so in every reachable state after `build` the
stored seed equals what `build` left there. -/
theorem c7_seed_immutable :
    (∀ (α : Type) (op : SysOp) (w : World α),
        (op.step w).resources = w.resources) ∧
    (∀ (α : Type) (p : RngPlugin) (app : Resources α) (hs : List Rng)
        (ops : List SysOp),
        (run_ops ops ⟨p.build app, hs⟩).resources.seed_res
          = (p.build app).seed_res) :=
  ⟨fun _ op w => step_resources op w,
   fun _ p app hs ops => by rw [run_ops_resources ops ⟨p.build app, hs⟩]⟩

/-- Claim C9: every operation of the system is total — descriptor
construction in all four forms, registration, and handle construction
produce a result for every input and every configuration state; no
operation has a failure path (none returns an error value). -/
theorem c9_totality :
    (∀ s : String, ∃ p : RngPlugin, RngPlugin.from_string s = p) ∧
    (∀ s : String, ∃ p : RngPlugin, RngPlugin.from_str s = p) ∧
    (∀ n : Nat, ∃ p : RngPlugin, RngPlugin.from_u64 n = p) ∧
    (∃ p : RngPlugin, RngPlugin.mk_default = p) ∧
    (∀ (α : Type) (p : RngPlugin) (app : Resources α),
        ∃ app2 : Resources α, p.build app = app2) ∧
    (∀ (α : Type) (res : Resources α), ∃ r : Rng, Rng.from_resources res = r) :=
  ⟨fun s => ⟨RngPlugin.from_string s, rfl⟩,
   fun s => ⟨RngPlugin.from_str s, rfl⟩,
   fun n => ⟨RngPlugin.from_u64 n, rfl⟩,
   ⟨RngPlugin.mk_default, rfl⟩,
   fun _ p app => ⟨p.build app, rfl⟩,
   fun _ res => ⟨Rng.from_resources res, rfl⟩⟩

/-- Claim C10: the two text conversion routes agree — for every string the
descriptor built from the owned `String` equals the descriptor built from
the string slice. -/
theorem c10_string_routes_agree :
    ∀ s : String, RngPlugin.from_string s = RngPlugin.from_str s :=
  fun _ => rfl

/-- Claim C8: under the configuration holding text seed "alpha" the first
unsigned 64-bit integer drawn from a freshly constructed handle differs
from the one drawn under the configuration holding text seed "beta"
(settled against the spec-modelled text-to-seed expansion, the external
`rand_seeder` crate's source not being part of this repository). -/
theorem c8_alpha_beta_first_u64_differ :
    (XorShiftRng.next_u64
        (Rng.from_resources
          (⟨some (Seed.string "alpha"), 0⟩ : Resources Nat)).inner).1
      ≠ (XorShiftRng.next_u64
        (Rng.from_resources
          (⟨some (Seed.string "beta"), 0⟩ : Resources Nat)).inner).1 := by
  decide
